import Mathlib

/-!
# Verification of the movie-recommendation Streamlit app (`main.py`)

A shallow embedding of the single-file Streamlit script. The script is
re-executed top to bottom on every user interaction; we model one execution as
a pure function from the inputs that vary (secrets store, process environment,
construction outcome of the external retriever stack, the cached resource, and
the query string) to the produced page output and updated state.

* Python `dict`s (`st.secrets`, `os.environ`, `Document.metadata`) become
  association lists with first-match lookup; assignment conses in front.
* Metadata values (`str` / `int` / `float`) become `MetaValue`; the `float`
  rating literals are exact decimals, embedded in `ℚ`.
* The external retriever (`SelfQueryRetriever.invoke`) is an opaque function
  `String → Except String (List Document)`; raising becomes `.error`.
* `st.cache_resource` is modelled by threading an `Option Retriever` cache
  across runs; a construction failure is not cached (the decorated function
  raised) and halts the page via `st.stop`.
-/

/-- A Python metadata value: string, int, or float (exact decimal, as `ℚ`). -/
inductive MetaValue where
  | str (s : String)
  | int (n : Int)
  | rat (q : ℚ)
deriving DecidableEq, Repr

/-- First-match lookup in an association list keyed by strings, the semantics
of Python `dict` indexing / `dict.get` on our assoc-list model. -/
def lookupKey {α : Type} : List (String × α) → String → Option α
  | [], _ => none
  | (k, v) :: rest, key => if k = key then some v else lookupKey rest key

/-- `langchain.schema.Document`: page content plus a metadata dict. -/
structure Document where
  page_content : String
  metadata : List (String × MetaValue)
deriving DecidableEq, Repr

/-- The hardcoded movie catalog (`docs`, `main.py` lines 34–75). -/
def docs : List Document :=
  [ { page_content := "A poor but big-hearted man takes orphans into his home. After discovering his scientist father's invisibility device, he rises to the occasion and fights to save his children and all of India from the clutches of a greedy gangster"
      metadata := [("year", .int 2006), ("director", .str "Rakesh Roshan"),
                   ("rating", .rat 7.1), ("genre", .str "science fiction")] }
  , { page_content := "The story of six young Indians who assist an English woman to film a documentary on the freedom fighters from their past, and the events that lead them to relive the long-forgotten saga of freedom"
      metadata := [("year", .int 2006), ("director", .str "Rakeysh Omprakash Mehra"),
                   ("rating", .rat 9.1), ("genre", .str "drama")] }
  , { page_content := "A depressed wealthy businessman finds his life changing after he meets a spunky and care-free young woman"
      metadata := [("year", .int 2007), ("director", .str "Anurag Basu"),
                   ("rating", .rat 6.8), ("genre", .str "romance")] }
  , { page_content := "A schoolteacher's world turns upside down when he realizes that his former student, who is now a world-famous artist, may have plagiarized his work"
      metadata := [("year", .int 2023), ("director", .str "R. Balki"),
                   ("rating", .rat 7.8), ("genre", .str "drama")] }
  , { page_content := "A man returns to his country in order to marry his childhood sweetheart and proceeds to create misunderstanding between the families"
      metadata := [("year", .int 1995), ("director", .str "Aditya Chopra"),
                   ("rating", .rat 8.1), ("genre", .str "romance")] }
  , { page_content := "The story of an Indian army officer guarding a picket alone in the Kargil conflict between India and Pakistan"
      metadata := [("year", .int 2003), ("director", .str "J.P. Dutta"),
                   ("rating", .rat 7.9), ("genre", .str "war")] }
  , { page_content := "Three young men from different parts of India arrive in Mumbai, seeking fame and fortune"
      metadata := [("year", .int 1975), ("director", .str "Ramesh Sippy"),
                   ("rating", .rat 8.2), ("genre", .str "action")] }
  , { page_content := "A simple man from a village falls in love with his new neighbor. He enlists the help of his musical-theater friends to woo the lovely girl-next-door away from her music teacher"
      metadata := [("year", .int 1990), ("director", .str "Sooraj Barjatya"),
                   ("rating", .rat 7.7), ("genre", .str "musical")] }
  , { page_content := "A young mute girl from Pakistan loses herself in India with no way to head back. A devoted man undertakes the task to get her back to her homeland and unite her with her family"
      metadata := [("year", .int 2015), ("director", .str "Kabir Khan"),
                   ("rating", .rat 8.0), ("genre", .str "drama")] }
  , { page_content := "Three idiots embark on a quest for a lost buddy. This journey takes them on a hilarious and meaningful adventure through memory lane and gives them a chance to relive their college days"
      metadata := [("year", .int 2009), ("director", .str "Rajkumar Hirani"),
                   ("rating", .rat 9.4), ("genre", .str "comedy")] }
  ]

/-- The values displayed for one result document (`main.py` lines 170–176):
expander header shows director and year, the body shows plot, genre and
rating. Missing metadata keys fall back to the defaults of
`doc.metadata.get(key, default)`, which never raises. -/
structure RenderedEntry where
  director : MetaValue
  year : MetaValue
  plot : String
  genre : MetaValue
  rating : MetaValue
deriving DecidableEq, Repr

/-- Rendering of a single result document (`main.py` lines 169–176). -/
def renderEntry (doc : Document) : RenderedEntry :=
  { director := (lookupKey doc.metadata "director").getD (.str "Unknown Director")
    year := (lookupKey doc.metadata "year").getD (.str "Unknown Year")
    plot := doc.page_content
    genre := (lookupKey doc.metadata "genre").getD (.str "N/A")
    rating := (lookupKey doc.metadata "rating").getD (.str "N/A") }

/-- The backend: `retriever.invoke` either returns a list of documents or
raises (modelled as `.error`). -/
def Retriever : Type := String → Except String (List Document)

/-- What the query-handling block of the page displays. -/
inductive QueryOutcome where
  | noQuery
  | rendered (entries : List RenderedEntry)
  | noMatch
  | searchError (msg : String)
deriving DecidableEq, Repr

/-- Result of the query-handling block: what was displayed, and how many
times `retriever.invoke` was called. -/
structure HandlerResult where
  outcome : QueryOutcome
  invocations : Nat
deriving DecidableEq, Repr

/-- The query-handling block (`main.py` lines 162–182).  `if user_query:` is
Python truthiness of a string (non-empty); inside, `retriever.invoke` is
called once, `if results:` is list truthiness, and any exception is caught
and displayed with a rephrase suggestion. -/
def handleQuery (invoke : String → Except String (List Document)) (q : String) :
    HandlerResult :=
  if q = "" then
    { outcome := .noQuery, invocations := 0 }
  else
    match invoke q with
    | .ok results =>
      if results = [] then
        { outcome := .noMatch, invocations := 1 }
      else
        { outcome := .rendered (results.map renderEntry), invocations := 1 }
    | .error e => { outcome := .searchError e, invocations := 1 }

/-- The fixed list of secret names checked at startup (`main.py` line 13). -/
def required_secrets : List String := ["OPENAI_API_KEY", "OPENAI_API_BASE", "OPENAI_MODEL"]

/-- `missing_secrets` (`main.py` line 14): the required names absent from
`st.secrets`. -/
def missing_secrets (secrets : List (String × String)) : List String :=
  required_secrets.filter (fun s => (lookupKey secrets s).isNone)

/-- Assignment to `os.environ[k]`: later lookups of `k` see `v`, other keys
are unaffected. -/
def setEnv (env : List (String × String)) (k v : String) : List (String × String) :=
  (k, v) :: env

/-- The environment-export block (`main.py` lines 22–23): writes the API key
and base URL secrets into the process environment.  (`OPENAI_MODEL` is read
in the sidebar display and in `initialize_retriever` but never exported.) -/
def exportEnv (secrets env : List (String × String)) : List (String × String) :=
  setEnv (setEnv env "OPENAI_API_KEY" ((lookupKey secrets "OPENAI_API_KEY").getD ""))
    "OPENAI_API_BASE" ((lookupKey secrets "OPENAI_API_BASE").getD "")

/-- The keyword arguments passed to `ChatOpenAI` inside `initialize_retriever`
(`main.py` lines 120–125): the model name is taken from `st.secrets` directly,
not from the environment. -/
structure ChatOpenAIParams where
  temperature : ℚ
  model : String
  openai_api_key : String
  openai_api_base : String
deriving DecidableEq, Repr

/-- The `ChatOpenAI(...)` call of `initialize_retriever` (`main.py` 120–125). -/
def llmParams (secrets : List (String × String)) : ChatOpenAIParams :=
  { temperature := 0
    model := (lookupKey secrets "OPENAI_MODEL").getD ""
    openai_api_key := (lookupKey secrets "OPENAI_API_KEY").getD ""
    openai_api_base := (lookupKey secrets "OPENAI_API_BASE").getD "" }

/-- `@st.cache_resource def initialize_retriever()` (`main.py` lines 78–142),
as seen from one script run.  `construct` is the outcome of the external
construction pipeline (embeddings, FAISS index over `docs`, `ChatOpenAI`,
`SelfQueryRetriever`): on a cache hit the body does not run; on a miss the
body runs once — success is cached, an exception reaches `st.error`/`st.stop`
and is not cached.  Returns (new cache, outcome, number of body runs). -/
def initialize_retriever (construct : Except String Retriever)
    (cache : Option Retriever) : Option Retriever × Except String Retriever × Nat :=
  match cache with
  | some r => (some r, .ok r, 0)
  | none =>
    match construct with
    | .ok r => (some r, .ok r, 1)
    | .error e => (none, .error e, 1)

/-- What one full script run displays. -/
inductive PageOutput where
  | missingSecretsError (names : List String)
  | initError (msg : String)
  | page (result : HandlerResult)

/-- State and output after one full script run. -/
structure RunResult where
  env : List (String × String)
  cache : Option Retriever
  constructorRuns : Nat
  output : PageOutput

/-- One top-to-bottom execution of `main.py` (Streamlit re-runs the whole
script per interaction).  Order as in the source: missing-secret check and
`st.stop` (lines 13–18); environment export (lines 21–31); catalog and
`initialize_retriever` (line 156, halting on construction failure); then the
query block (lines 159–182) on the submitted text `q` (empty on first render). -/
def scriptRun (secrets : List (String × String)) (construct : Except String Retriever)
    (env : List (String × String)) (cache : Option Retriever) (q : String) : RunResult :=
  if missing_secrets secrets = [] then
    let env2 := exportEnv secrets env
    match initialize_retriever construct cache with
    | (cache2, .ok r, n) =>
        { env := env2, cache := cache2, constructorRuns := n
          output := .page (handleQuery r q) }
    | (cache2, .error e, n) =>
        { env := env2, cache := cache2, constructorRuns := n
          output := .initError e }
  else
    { env := env, cache := cache, constructorRuns := 0
      output := .missingSecretsError (missing_secrets secrets) }

/-- A session: successive script runs for successive submitted queries, the
environment and the `st.cache_resource` cache threaded through. -/
def runSession (secrets : List (String × String)) (construct : Except String Retriever)
    (env : List (String × String)) (cache : Option Retriever) :
    List String → List RunResult
  | [] => []
  | q :: qs =>
    let r := scriptRun secrets construct env cache q
    r :: runSession secrets construct r.env r.cache qs

/-- A concrete secrets store with all three required secrets present, used to
instantiate theorems at concrete inputs. -/
def secrets₀ : List (String × String) :=
  [("OPENAI_API_KEY", "k"), ("OPENAI_API_BASE", "b"), ("OPENAI_MODEL", "m")]

/-- Modelled from the spec: Variant B (the prompt-based variant) is not
present under `src/` — only Variant A's self-query retriever is — so its
reply handling is modelled from the spec's words.  Case-insensitive
character comparison: an ASCII upper-case letter is mapped to the code of
its lower-case form. -/
def lowerCode (c : Char) : Nat :=
  if 65 ≤ c.toNat ∧ c.toNat ≤ 90 then c.toNat + 32 else c.toNat

/-- Modelled from the spec: splitting the model's comma-separated reply at
commas. -/
def splitComma : List Char → List (List Char)
  | [] => [[]]
  | c :: rest =>
    let r := splitComma rest
    if c = ',' then [] :: r
    else
      match r with
      | [] => [[c]]
      | cur :: tail => (c :: cur) :: tail

/-- Modelled from the spec: trimming surrounding spaces from a parsed
title. -/
def trimSpaces (l : List Char) : List Char :=
  ((l.dropWhile (fun c => c = ' ')).reverse.dropWhile (fun c => c = ' ')).reverse

/-- Modelled from the spec: Variant B's reply handling.  The catalog is
serialized into a prompt and the model is asked to pick titles; a reply of
exactly `"No matches found."` yields no results, otherwise the reply is
split at commas, each piece trimmed, and the catalog titles matched
case-insensitively against the pieces — titles of the reply that are not in
the catalog are silently dropped. -/
def variantBSelect (catalogTitles : List String) (reply : String) : List String :=
  if reply = "No matches found." then []
  else
    let picks := (splitComma reply.data).map trimSpaces
    catalogTitles.filter (fun t =>
      picks.any (fun p => p.map lowerCode == t.data.map lowerCode))

/-! ## Helper lemmas -/

/-- The number of backend invocations performed by the query block is 1 for a
non-empty query and 0 for an empty one, whatever the backend does. -/
theorem handleQuery_invocations (invoke : String → Except String (List Document))
    (q : String) :
    (handleQuery invoke q).invocations = if q = "" then 0 else 1 := by
  by_cases hq : q = ""
  · simp [handleQuery, hq]
  · rcases h : invoke q with e | l
    · simp [handleQuery, hq, h]
    · by_cases hl : l = [] <;> simp [handleQuery, hq, h, hl]

/-! ## C10: rendering falls back to defaults on missing metadata -/

/-- C10: Rendering a result entry is total over records with missing
metadata: for every returned document, absent `director`, `year`, `genre`,
or `rating` keys render as the defaults `Unknown Director`, `Unknown Year`,
`N/A`, and `N/A` respectively (and `renderEntry` is a total function, so no
lookup error can be raised). -/
theorem C10_render_defaults (d : Document) :
    (lookupKey d.metadata "director" = none →
      (renderEntry d).director = .str "Unknown Director") ∧
    (lookupKey d.metadata "year" = none →
      (renderEntry d).year = .str "Unknown Year") ∧
    (lookupKey d.metadata "genre" = none →
      (renderEntry d).genre = .str "N/A") ∧
    (lookupKey d.metadata "rating" = none →
      (renderEntry d).rating = .str "N/A") := by
  refine ⟨fun h => ?_, fun h => ?_, fun h => ?_, fun h => ?_⟩ <;>
    simp [renderEntry, h]

/-- C10 witness: a document with no metadata renders all four defaults. -/
theorem C10_witness :
    (renderEntry ⟨"plot", []⟩).director = .str "Unknown Director" ∧
    (renderEntry ⟨"plot", []⟩).year = .str "Unknown Year" ∧
    (renderEntry ⟨"plot", []⟩).genre = .str "N/A" ∧
    (renderEntry ⟨"plot", []⟩).rating = .str "N/A" := by
  obtain ⟨h1, h2, h3, h4⟩ := C10_render_defaults ⟨"plot", []⟩
  exact ⟨h1 rfl, h2 rfl, h3 rfl, h4 rfl⟩

/-! ## C3: shape of the catalog -/

/-- C3: The catalog is exactly 10 records; every record has a non-empty plot
summary, an integer year, a string director, a rational (float-literal)
rating between 1 and 10, and a string genre.  (The catalog is a top-level
constant of the embedding, defined once and never mutated by any operation
of the model.) -/
theorem C3_catalog_shape :
    docs.length = 10 ∧
    ∀ d ∈ docs,
      d.page_content ≠ "" ∧
      (∃ y : Int, lookupKey d.metadata "year" = some (.int y)) ∧
      (∃ s : String, lookupKey d.metadata "director" = some (.str s)) ∧
      (∃ q : ℚ, lookupKey d.metadata "rating" = some (.rat q) ∧ 1 ≤ q ∧ q ≤ 10) ∧
      (∃ g : String, lookupKey d.metadata "genre" = some (.str g)) := by
  refine ⟨rfl, fun d hd => ?_⟩
  simp only [docs, List.mem_cons, List.not_mem_nil, or_false] at hd
  rcases hd with h | h | h | h | h | h | h | h | h | h <;> subst h <;>
    exact ⟨by decide, ⟨_, rfl⟩, ⟨_, rfl⟩, ⟨_, rfl, by norm_num, by norm_num⟩, ⟨_, rfl⟩⟩

/-- C3 witness: the first catalog record is a member and has an integer
year. -/
theorem C3_witness :
    docs.getD 0 ⟨"", []⟩ ∈ docs ∧
    (∃ y : Int, lookupKey (docs.getD 0 ⟨"", []⟩).metadata "year" = some (.int y)) := by
  have hmem : docs.getD 0 ⟨"", []⟩ ∈ docs := by
    simp [docs]
  exact ⟨hmem, (C3_catalog_shape.2 _ hmem).2.1⟩

/-! ## C7: the backend is invoked iff the query is non-empty -/

/-- C7: The backend is invoked exactly once if and only if the submitted
query string is non-empty; an empty submission performs no invocation and
renders no result, notice, or error (`noQuery`). -/
theorem C7_invoke_iff_nonempty (invoke : String → Except String (List Document))
    (q : String) :
    ((handleQuery invoke q).invocations = 1 ↔ q ≠ "") ∧
    (q = "" → handleQuery invoke q = { outcome := .noQuery, invocations := 0 }) := by
  constructor
  · rw [handleQuery_invocations]
    by_cases hq : q = "" <;> simp [hq]
  · intro hq
    simp [handleQuery, hq]

/-- C7 witness: a concrete backend is invoked once on `"drama"` and not at
all on the empty submission. -/
theorem C7_witness :
    (handleQuery (fun _ => Except.ok []) "drama").invocations = 1 ∧
    handleQuery (fun _ => Except.ok ([] : List Document)) "" =
      { outcome := .noQuery, invocations := 0 } :=
  ⟨(C7_invoke_iff_nonempty (fun _ => Except.ok []) "drama").1.mpr (by decide),
   (C7_invoke_iff_nonempty (fun _ => Except.ok []) "").2 rfl⟩

/-! ## C1: the query block's three branches -/

/-- C1: For every non-empty submitted query the backend is invoked exactly
once, and the block takes exactly one of three branches keyed to the
invocation's outcome: a non-empty returned collection is rendered entry by
entry, an empty collection shows the no-match notice, and an exception shows
the search-error message (with the rephrase suggestion). -/
theorem C1_query_branches (invoke : String → Except String (List Document))
    (q : String) (hq : q ≠ "") :
    (handleQuery invoke q).invocations = 1 ∧
    (∀ l, invoke q = .ok l → l ≠ [] →
      (handleQuery invoke q).outcome = .rendered (l.map renderEntry)) ∧
    (invoke q = .ok [] → (handleQuery invoke q).outcome = .noMatch) ∧
    (∀ e, invoke q = .error e → (handleQuery invoke q).outcome = .searchError e) := by
  refine ⟨?_, fun l hl hne => ?_, fun h => ?_, fun e he => ?_⟩
  · rw [handleQuery_invocations, if_neg hq]
  · simp [handleQuery, hq, hl, hne]
  · simp [handleQuery, hq, h]
  · simp [handleQuery, hq, he]

/-- C1 witness: with a backend returning the whole catalog, the query
`"movies"` renders every catalog entry. -/
theorem C1_witness :
    (handleQuery (fun _ => Except.ok docs) "movies").invocations = 1 ∧
    (handleQuery (fun _ => Except.ok docs) "movies").outcome =
      .rendered (docs.map renderEntry) := by
  have h := C1_query_branches (fun _ => Except.ok docs) "movies" (by decide)
  exact ⟨h.1, h.2.1 docs rfl (by simp [docs])⟩

/-! ## Session lemmas -/

/-- With all secrets present and the retriever already cached, every run of a
session produces the page for its own query, runs the constructor body zero
times, and keeps the cache. -/
theorem runSession_cached_spec (secrets : List (String × String)) (r : Retriever)
    (hsec : missing_secrets secrets = []) :
    ∀ (qs : List String) (env : List (String × String)),
      (runSession secrets (.ok r) env (some r) qs).map RunResult.output
        = qs.map (fun q => PageOutput.page (handleQuery r q)) ∧
      (runSession secrets (.ok r) env (some r) qs).map RunResult.constructorRuns
        = qs.map (fun _ => 0) := by
  intro qs
  induction qs with
  | nil => intro env; exact ⟨rfl, rfl⟩
  | cons q qs ih =>
    intro env
    have hrun : scriptRun secrets (.ok r) env (some r) q =
        { env := exportEnv secrets env, cache := some r, constructorRuns := 0,
          output := .page (handleQuery r q) } := by
      simp [scriptRun, hsec, initialize_retriever]
    constructor
    · simp [runSession, hrun, (ih (exportEnv secrets env)).1]
    · simp [runSession, hrun, (ih (exportEnv secrets env)).2]

/-- With all secrets present and construction succeeding, a fresh-process
session displays, run by run, exactly the page for that run's query. -/
theorem runSession_outputs (secrets : List (String × String)) (r : Retriever)
    (hsec : missing_secrets secrets = []) (qs : List String)
    (env : List (String × String)) :
    (runSession secrets (.ok r) env none qs).map RunResult.output
      = qs.map (fun q => PageOutput.page (handleQuery r q)) := by
  cases qs with
  | nil => rfl
  | cons q qs =>
    have hrun : scriptRun secrets (.ok r) env none q =
        { env := exportEnv secrets env, cache := some r, constructorRuns := 1,
          output := .page (handleQuery r q) } := by
      simp [scriptRun, hsec, initialize_retriever]
    simp [runSession, hrun,
      (runSession_cached_spec secrets r hsec qs (exportEnv secrets env)).1]

/-! ## C8: query handling is stateless -/

/-- C8: No history is retained across queries: in any session, the run for
the final query `q` displays exactly the page computed from `q` alone, so two
sessions with arbitrary different earlier queries (and environments) display
the same thing for the same final query against the same backend. -/
theorem C8_stateless (secrets : List (String × String)) (r : Retriever)
    (hsec : missing_secrets secrets = [])
    (env₁ env₂ : List (String × String)) (qs₁ qs₂ : List String) (q : String) :
    ((runSession secrets (.ok r) env₁ none (qs₁ ++ [q])).map RunResult.output).getLast?
      = some (.page (handleQuery r q)) ∧
    ((runSession secrets (.ok r) env₁ none (qs₁ ++ [q])).map RunResult.output).getLast?
      = ((runSession secrets (.ok r) env₂ none (qs₂ ++ [q])).map RunResult.output).getLast? := by
  have hlast : ∀ (qs : List String),
      ((qs ++ [q]).map (fun q0 => PageOutput.page (handleQuery r q0))).getLast?
        = some (.page (handleQuery r q)) := by
    intro qs
    rw [List.map_append]
    simp
  rw [runSession_outputs secrets r hsec _ env₁, runSession_outputs secrets r hsec _ env₂,
    hlast, hlast]
  exact ⟨rfl, rfl⟩

/-- C8 witness: two concrete sessions with different histories display the
same final page for the query `"q"`. -/
theorem C8_witness :
    ((runSession secrets₀ (.ok (fun _ => Except.ok [])) [] none (["a"] ++ ["q"])).map
        RunResult.output).getLast?
      = some (.page (handleQuery (fun _ => Except.ok []) "q")) ∧
    ((runSession secrets₀ (.ok (fun _ => Except.ok [])) [] none (["a"] ++ ["q"])).map
        RunResult.output).getLast?
      = ((runSession secrets₀ (.ok (fun _ => Except.ok []))
            [("X", "y")] none (["b", "c"] ++ ["q"])).map RunResult.output).getLast? :=
  C8_stateless secrets₀ (fun _ => Except.ok []) (by decide) [] [("X", "y")]
    ["a"] ["b", "c"] "q"

/-! ## C4: the backend is constructed once and failures halt the page -/

/-- C4: In a fresh process with all secrets present, the constructor body of
the cached resource runs exactly once over any non-empty session — later runs
reuse the cached retriever and still serve every query — and a construction
exception makes the run display the terminal initialization error instead of
any query handling. -/
theorem C4_construct_once (secrets : List (String × String)) (r : Retriever)
    (e : String) (env : List (String × String)) (qs : List String) (q : String)
    (hsec : missing_secrets secrets = []) (hqs : qs ≠ []) :
    ((runSession secrets (.ok r) env none qs).map RunResult.constructorRuns).sum = 1 ∧
    (runSession secrets (.ok r) env none qs).map RunResult.output
      = qs.map (fun q0 => PageOutput.page (handleQuery r q0)) ∧
    (scriptRun secrets (.error e) env none q).output = .initError e := by
  refine ⟨?_, runSession_outputs secrets r hsec qs env, ?_⟩
  · cases qs with
    | nil => exact absurd rfl hqs
    | cons q0 qs =>
      have hrun : scriptRun secrets (.ok r) env none q0 =
          { env := exportEnv secrets env, cache := some r, constructorRuns := 1,
            output := .page (handleQuery r q0) } := by
        simp [scriptRun, hsec, initialize_retriever]
      have hrest := (runSession_cached_spec secrets r hsec qs (exportEnv secrets env)).2
      simp [runSession, hrun, hrest]
  · simp [scriptRun, hsec, initialize_retriever]

/-- C4 witness: a concrete two-query session runs the constructor once, and a
failing construction shows the terminal error. -/
theorem C4_witness :
    ((runSession secrets₀ (.ok (fun _ => Except.ok docs)) [] none ["a", "b"]).map
        RunResult.constructorRuns).sum = 1 ∧
    (scriptRun secrets₀ (Except.error "boom") [] none "q").output = .initError "boom" := by
  have h := C4_construct_once secrets₀ (fun _ => Except.ok docs) "boom" [] ["a", "b"] "q"
    (by decide) (by decide)
  exact ⟨h.1, h.2.2⟩

/-! ## C2: a missing secret halts the script -/

/-- C2: If any required named secret is absent, the run displays the
missing-secrets error and halts: the environment is untouched (no export),
the constructor never runs, and no query outcome is produced — never a silent
continuation. -/
theorem C2_missing_secret_halts (secrets : List (String × String))
    (construct : Except String Retriever) (env : List (String × String))
    (cache : Option Retriever) (q s : String)
    (hs : s ∈ required_secrets) (hnone : lookupKey secrets s = none) :
    missing_secrets secrets ≠ [] ∧
    (scriptRun secrets construct env cache q).output
      = .missingSecretsError (missing_secrets secrets) ∧
    (scriptRun secrets construct env cache q).env = env ∧
    (scriptRun secrets construct env cache q).constructorRuns = 0 := by
  have hmem : s ∈ missing_secrets secrets :=
    List.mem_filter.mpr ⟨hs, by simp [hnone]⟩
  have hne : missing_secrets secrets ≠ [] := List.ne_nil_of_mem hmem
  refine ⟨hne, ?_, ?_, ?_⟩ <;> simp [scriptRun, hne]

/-- C2 witness: a secrets store missing `OPENAI_API_BASE` makes a concrete
run halt with the missing-secrets error, leaving the environment untouched. -/
theorem C2_witness :
    missing_secrets [("OPENAI_API_KEY", "k")] ≠ [] ∧
    (scriptRun [("OPENAI_API_KEY", "k")] (Except.error "boom") [] none "q").output
      = .missingSecretsError (missing_secrets [("OPENAI_API_KEY", "k")]) ∧
    (scriptRun [("OPENAI_API_KEY", "k")] (Except.error "boom") [] none "q").env = [] := by
  have h := C2_missing_secret_halts [("OPENAI_API_KEY", "k")] (Except.error "boom")
    [] none "q" "OPENAI_API_BASE" (by decide) (by decide)
  exact ⟨h.1, h.2.1, h.2.2.1⟩

/-! ## C6: which checked secrets are exported -/

/-- C6 counterexample: with all three required secrets present and checked,
after the configuration block runs (and the script proceeds past it), the
process environment still has no `OPENAI_MODEL` entry — so not all checked
secret values are exported. -/
theorem C6_counterexample :
    "OPENAI_MODEL" ∈ required_secrets ∧
    lookupKey secrets₀ "OPENAI_MODEL" = some "m" ∧
    missing_secrets secrets₀ = [] ∧
    lookupKey (scriptRun secrets₀ (Except.error "x") [] none "").env "OPENAI_MODEL"
      = none := by
  refine ⟨by decide, by decide, by decide, ?_⟩
  simp [scriptRun, missing_secrets, required_secrets, secrets₀, lookupKey,
    initialize_retriever, exportEnv, setEnv]

/-- C6 (amended): After the configuration loader succeeds, the checked
`OPENAI_API_KEY` and `OPENAI_API_BASE` values are exported into the process
environment; the checked `OPENAI_MODEL` value is not exported (the
environment's `OPENAI_MODEL` entry is unchanged). -/
theorem C6_export_key_base (secrets env : List (String × String)) (k b : String)
    (hk : lookupKey secrets "OPENAI_API_KEY" = some k)
    (hb : lookupKey secrets "OPENAI_API_BASE" = some b) :
    lookupKey (exportEnv secrets env) "OPENAI_API_KEY" = some k ∧
    lookupKey (exportEnv secrets env) "OPENAI_API_BASE" = some b ∧
    lookupKey (exportEnv secrets env) "OPENAI_MODEL" = lookupKey env "OPENAI_MODEL" := by
  refine ⟨?_, ?_, ?_⟩ <;> simp [exportEnv, setEnv, lookupKey, hk, hb]

/-- C6 witness: a concrete environment after the loader holds the key and
base values and no model entry. -/
theorem C6_witness :
    lookupKey (exportEnv secrets₀ []) "OPENAI_API_KEY" = some "k" ∧
    lookupKey (exportEnv secrets₀ []) "OPENAI_API_BASE" = some "b" ∧
    lookupKey (exportEnv secrets₀ []) "OPENAI_MODEL" = lookupKey [] "OPENAI_MODEL" :=
  C6_export_key_base secrets₀ [] "k" "b" (by decide) (by decide)

/-! ## C9: OPENAI_MODEL is checked but not exported -/

/-- C9: Of the three required secrets only the API key and base URL are
written into the process environment; `OPENAI_MODEL` is presence-checked but
never exported — the environment's entry for it is whatever it was before —
and its value is instead passed directly to the chat-model constructor. -/
theorem C9_model_not_exported (secrets env : List (String × String)) (k b m : String)
    (hk : lookupKey secrets "OPENAI_API_KEY" = some k)
    (hb : lookupKey secrets "OPENAI_API_BASE" = some b)
    (hm : lookupKey secrets "OPENAI_MODEL" = some m) :
    lookupKey (exportEnv secrets env) "OPENAI_MODEL" = lookupKey env "OPENAI_MODEL" ∧
    lookupKey (exportEnv secrets env) "OPENAI_API_KEY" = some k ∧
    lookupKey (exportEnv secrets env) "OPENAI_API_BASE" = some b ∧
    missing_secrets secrets = [] ∧
    (llmParams secrets).model = m := by
  refine ⟨?_, ?_, ?_, ?_, ?_⟩
  · simp [exportEnv, setEnv, lookupKey]
  · simp [exportEnv, setEnv, lookupKey, hk]
  · simp [exportEnv, setEnv, lookupKey, hb]
  · simp [missing_secrets, required_secrets, hk, hb, hm]
  · simp [llmParams, hm]

/-- C9 witness: at the concrete secrets store, the loader leaves
`OPENAI_MODEL` out of the environment while the chat-model constructor
receives it. -/
theorem C9_witness :
    lookupKey (exportEnv secrets₀ []) "OPENAI_MODEL" = lookupKey [] "OPENAI_MODEL" ∧
    lookupKey (exportEnv secrets₀ []) "OPENAI_API_KEY" = some "k" ∧
    (llmParams secrets₀).model = "m" := by
  have h := C9_model_not_exported secrets₀ [] "k" "b" "m" (by decide) (by decide) (by decide)
  exact ⟨h.1, h.2.1, h.2.2.2.2⟩

/-! ## C5: Variant B reply handling (modelled from the spec) -/

/-- C5: In Variant B, a model reply of exactly `"No matches found."` yields
an empty result set, and any reply yields only titles present in the catalog
(titles in the reply that match no catalog title are silently dropped). -/
theorem C5_variantB_reply (titles : List String) :
    variantBSelect titles "No matches found." = [] ∧
    ∀ (reply t : String), t ∈ variantBSelect titles reply → t ∈ titles := by
  constructor
  · simp [variantBSelect]
  · intro reply t ht
    unfold variantBSelect at ht
    split at ht
    · simp at ht
    · exact List.mem_of_mem_filter ht

/-- C5 witness: with catalog titles `Sholay` and `Lagaan`, the no-match reply
yields nothing, and the reply `"sholay, Zzz"` selects only the catalog title
`Sholay` (the unknown `Zzz` is dropped). -/
theorem C5_witness :
    variantBSelect ["Sholay", "Lagaan"] "No matches found." = [] ∧
    "Sholay" ∈ ["Sholay", "Lagaan"] ∧
    variantBSelect ["Sholay", "Lagaan"] "sholay, Zzz" = ["Sholay"] :=
  ⟨(C5_variantB_reply ["Sholay", "Lagaan"]).1,
   (C5_variantB_reply ["Sholay", "Lagaan"]).2 "sholay, Zzz" "Sholay" (by decide),
   by decide⟩
